import Mathlib

/-!
Shallow embedding of the transcription service in
`src/whisper-api/app/main.py` (FastAPI handler `transcribe_audio`,
`health_check`), faithful to the source: the module-level constant
`MAX_FILE_SIZE`, the validation order of the handler (model readiness,
filename, size), suffix derivation via `Path(filename).suffix.lower()`,
staging to a temporary file, the engine invocation with its keyword
arguments, the segment-collection loop, and the `try/except/finally`
cleanup.  The recognition engine (`faster_whisper.WhisperModel.transcribe`
followed by `list(...)`) is external; it is modelled as a function from the
uploaded bytes and the keyword arguments to either an exception message or
a fully realized list of segments plus summary info.  Filesystem effects
are modelled by explicit flags: whether a temporary file was created
(`staged`) and whether one remains after the handler finishes
(`tempLeft`); whether `os.unlink` succeeds is an input (`unlink_ok`).
-/

namespace WhisperApi

/-- `MAX_FILE_SIZE = 50 * 1024 * 1024` from `main.py`. -/
def MAX_FILE_SIZE : Nat := 50 * 1024 * 1024

/-- An uploaded file: declared filename and raw byte payload
(bytes as naturals).  A missing filename is modelled as `""`, matching
Python's `if not file.filename` which treats `None` and `""` alike. -/
structure UploadFile where
  filename : String
  content : List Nat
deriving Repr

/-- A word record as produced by the engine (faster-whisper `Word`). -/
structure Word where
  start : Float
  «end» : Float
  word : String
  probability : Float
deriving Repr

/-- A raw segment record as produced by the engine (faster-whisper
`Segment`): `words` is `none` unless word timestamps were collected. -/
structure Segment where
  start : Float
  «end» : Float
  text : String
  avg_logprob : Float
  no_speech_prob : Float
  words : Option (List Word)
deriving Repr

/-- Summary info returned by the engine (`info.language`, `info.duration`). -/
structure TranscriptionInfo where
  language : String
  duration : Float
deriving Repr

/-- What the engine produces when it does not raise: the realized segment
list (`list(segments_iter)`) and the summary info. -/
structure EngineOutput where
  segments : List Segment
  info : TranscriptionInfo
deriving Repr

/-- A JSON-like value, used to model the Python dicts that the handler
builds for each segment (`segment_data`) and each word. -/
inductive JValue where
  | num (x : Float)
  | str (s : String)
  | arr (xs : List JValue)
  | obj (kvs : List (String × JValue))
deriving Repr

/-- The `TranscriptionResponse` pydantic model: `text`, `language`,
`duration` and `segments` are all declared (none optional); each segment
is a Python dict, modelled as an ordered key/value list. -/
structure TranscriptionResponse where
  text : String
  language : String
  duration : Float
  segments : List (List (String × JValue))
deriving Repr

/-- The `HealthResponse` pydantic model. -/
structure HealthResponse where
  status : String
  model_loaded : Bool
deriving Repr, DecidableEq

/-- A raised `fastapi.HTTPException`: status code and detail message. -/
structure HTTPException where
  status_code : Nat
  detail : String
deriving Repr, DecidableEq

/-- The keyword arguments the handler passes to `model.transcribe`:
`language`, `beam_size=5`, `vad_filter=True`,
`vad_parameters=dict(min_silence_duration_ms=500)`, `word_timestamps`,
and `initial_prompt` only when truthy. -/
structure TranscribeKwargs where
  language : String
  beam_size : Nat
  vad_filter : Bool
  min_silence_duration_ms : Nat
  word_timestamps : Bool
  initial_prompt : Option String
deriving Repr

/-- The engine: given the staged bytes and the keyword arguments, either
raises (an exception message) or returns realized segments and info.
This stands for the loaded `WhisperModel` instance. -/
def Engine : Type := List Nat → TranscribeKwargs → Except String EngineOutput

/-- Python `str.rfind(c)` restricted to a single character over a char
list: index of the last occurrence, or `none`. -/
def rfind_char (c : Char) : List Char → Option Nat
  | [] => none
  | a :: as =>
    match rfind_char c as with
    | some i => some (i + 1)
    | none => if a = c then some 0 else none

/-- The final path component, as `pathlib.PurePath.name` for the names the
handler sees: the part after the last `/`. -/
def path_name (p : String) : String :=
  (p.splitOn "/").getLastD p

/-- `pathlib.PurePath.suffix`: the substring of the final component from
its last dot, provided that dot is neither the first nor the last
character; otherwise `""`. -/
def path_suffix (p : String) : String :=
  let name := path_name p
  match rfind_char '.' name.toList with
  | some i =>
    if 0 < i ∧ i < name.toList.length - 1 then
      String.mk (name.toList.drop i)
    else ""
  | none => ""

/-- Builds the `transcribe_kwargs` dict from `main.py`: fixed defaults,
and `initial_prompt` included only when truthy (`if initial_prompt:`). -/
def transcribe_kwargs (language : String) (initial_prompt : Option String)
    (word_timestamps : Bool) : TranscribeKwargs :=
  { language := language
    beam_size := 5
    vad_filter := true
    min_silence_duration_ms := 500
    word_timestamps := word_timestamps
    initial_prompt :=
      match initial_prompt with
      | some p => if p = "" then none else some p
      | none => none }

/-- Python `str.strip()` with no arguments: remove leading and trailing
whitespace.  Implemented over the character list so that it evaluates by
kernel reduction. -/
def strip (s : String) : String :=
  String.mk
    (((s.toList.dropWhile Char.isWhitespace).reverse.dropWhile
        Char.isWhitespace).reverse)

/-- Python truthiness of `segment.words` (an `Option` over a list):
truthy iff present and non-empty. -/
def words_truthy : Option (List Word) → Bool
  | none => false
  | some ws => !ws.isEmpty

/-- The word dict built inside the list comprehension of `main.py`. -/
def word_data (w : Word) : List (String × JValue) :=
  [("start", .num w.start), ("end", .num w.«end»),
   ("word", .str w.word), ("probability", .num w.probability)]

/-- The `segment_data` dict built for one raw segment in the loop of
`main.py`: the five base keys, and `words` appended only when
`word_timestamps and segment.words` is truthy. -/
def segment_data (word_timestamps : Bool) (segment : Segment) :
    List (String × JValue) :=
  let base : List (String × JValue) :=
    [("start", .num segment.start), ("end", .num segment.«end»),
     ("text", .str (strip segment.text)),
     ("avg_logprob", .num segment.avg_logprob),
     ("no_speech_prob", .num segment.no_speech_prob)]
  if word_timestamps && words_truthy segment.words then
    base ++ [("words", .arr ((segment.words.getD []).map (fun w => .obj (word_data w))))]
  else base

/-- The segment-collection loop of `main.py`: starting from
`segment_list = []` and `full_text_parts = []`, each raw segment appends
its `segment_data` dict and its trimmed text. -/
def collect_segments (word_timestamps : Bool) (raw_segments : List Segment) :
    List (List (String × JValue)) × List String :=
  raw_segments.foldl
    (fun acc segment =>
      (acc.1 ++ [segment_data word_timestamps segment],
       acc.2 ++ [strip segment.text]))
    ([], [])

/-- The outcome of one `POST /transcribe` request: the HTTP-level result
(raised `HTTPException` or 200 response body), whether a temporary file
was created during handling (`staged`), and whether one remains on disk
after handling completes (`tempLeft`). -/
structure HandlerOutcome where
  result : Except HTTPException TranscriptionResponse
  staged : Bool
  tempLeft : Bool
deriving Repr

/-- `GET /health` from `main.py`: always `status="healthy"`, with
`model_loaded` reporting whether the global model is set. -/
def health_check (model : Option Engine) : HealthResponse :=
  { status := "healthy", model_loaded := model.isSome }

/-- `POST /transcribe` from `main.py`, as explicit state passing.
In source order: 503 when the model is not loaded; 400 on empty
filename; the payload is read and 413 raised when it exceeds
`MAX_FILE_SIZE`; the suffix is derived (default `".oga"`); the payload is
staged to a temporary file; the engine is invoked with the built kwargs;
its realized segments are folded into the response; any engine exception
becomes a 500 with the original message.  The `finally` block removes the
temporary file when it was created, swallowing a failing `os.unlink`
(`unlink_ok = false` leaves the file behind but changes nothing else). -/
def transcribe_audio (model : Option Engine) (file : UploadFile)
    (language : String) (initial_prompt : Option String)
    (word_timestamps : Bool) (unlink_ok : Bool) : HandlerOutcome :=
  match model with
  | none =>
    { result := .error ⟨503, "Model not loaded"⟩, staged := false, tempLeft := false }
  | some engine =>
    if file.filename = "" then
      { result := .error ⟨400, "No filename provided"⟩, staged := false, tempLeft := false }
    else
      let content := file.content
      if content.length > MAX_FILE_SIZE then
        { result := .error ⟨413,
            "File too large. Maximum size is " ++
              toString (MAX_FILE_SIZE / (1024 * 1024)) ++ "MB"⟩
          staged := false, tempLeft := false }
      else
        let suffix0 := (path_suffix file.filename).toLower
        let _suffix := if suffix0 = "" then ".oga" else suffix0
        let kwargs := transcribe_kwargs language initial_prompt word_timestamps
        let tempLeft := !unlink_ok
        match engine content kwargs with
        | .error e =>
          { result := .error ⟨500, "Transcription failed: " ++ e⟩
            staged := true, tempLeft := tempLeft }
        | .ok out =>
          let lists := collect_segments word_timestamps out.segments
          let full_text := String.intercalate " " lists.2
          { result := .ok
              { text := full_text
                language := out.info.language
                duration := out.info.duration
                segments := lists.1 }
            staged := true, tempLeft := tempLeft }

/-- The status code of a handler result, when it raised. -/
def resultStatus : Except HTTPException TranscriptionResponse → Option Nat
  | .error e => some e.status_code
  | .ok _ => none

/-! Concrete sample inputs used to instantiate the theorems. -/

/-- A sample word record. -/
def wordA : Word :=
  { start := 0.0, «end» := 0.5, word := "Hello", probability := 0.9 }

/-- A sample segment whose text has surrounding whitespace and which
carries word-level data. -/
def segA : Segment :=
  { start := 0.0, «end» := 1.0, text := " Hello ", avg_logprob := -0.1,
    no_speech_prob := 0.01, words := some [wordA] }

/-- A second sample segment, without word-level data. -/
def segB : Segment :=
  { start := 1.0, «end» := 2.0, text := "world ", avg_logprob := -0.2,
    no_speech_prob := 0.02, words := none }

/-- Sample summary info. -/
def infoA : TranscriptionInfo := { language := "he", duration := 2.0 }

/-- A sample engine that succeeds with two segments. -/
def engOkA : Engine := fun _ _ => .ok { segments := [segA, segB], info := infoA }

/-- A sample engine that raises with message `"boom"`. -/
def engErrA : Engine := fun _ _ => .error "boom"

/-- A small valid upload. -/
def fileA : UploadFile := { filename := "sample.wav", content := [1, 2, 3] }

/-- An upload with an empty filename whose payload exceeds
`MAX_FILE_SIZE`. -/
def fileBigNoName : UploadFile :=
  { filename := "", content := List.replicate (MAX_FILE_SIZE + 1) 0 }

/-- An oversized upload with a valid filename. -/
def fileBigA : UploadFile :=
  { filename := "big.wav", content := List.replicate (MAX_FILE_SIZE + 1) 0 }

/-! Helper lemmas shared by several claim theorems. -/

/-- The segment-collection fold, for an arbitrary accumulator: it appends
the mapped segment dicts and the trimmed texts. -/
theorem collect_segments_foldl (wt : Bool) (raw : List Segment)
    (acc : List (List (String × JValue)) × List String) :
    raw.foldl
      (fun acc segment =>
        (acc.1 ++ [segment_data wt segment], acc.2 ++ [strip segment.text]))
      acc =
    (acc.1 ++ raw.map (segment_data wt),
     acc.2 ++ raw.map (fun s => strip s.text)) := by
  induction raw generalizing acc with
  | nil => simp
  | cons s rest ih => simp [List.foldl_cons, ih]

/-- The collection loop is the map of `segment_data` paired with the map
of trimmed texts, in emission order. -/
theorem collect_segments_eq (wt : Bool) (raw : List Segment) :
    collect_segments wt raw =
      (raw.map (segment_data wt), raw.map (fun s => strip s.text)) := by
  simpa using collect_segments_foldl wt raw ([], [])

/-- The keys of a `segment_data` dict: the five base keys, plus `"words"`
exactly when `word_timestamps` is set and the segment's word list is
truthy. -/
theorem segment_data_keys (wt : Bool) (s : Segment) :
    (segment_data wt s).map Prod.fst =
      if wt && words_truthy s.words then
        ["start", "end", "text", "avg_logprob", "no_speech_prob", "words"]
      else
        ["start", "end", "text", "avg_logprob", "no_speech_prob"] := by
  by_cases h : (wt && words_truthy s.words) = true
  · simp [segment_data, h]
  · simp [segment_data, h]

/-! Claim theorems. -/

/-- C1: whenever staging occurred during a `POST /transcribe` call, the
staged temporary file is removed before handling completes on every exit
path (the engine behaviour, hence the success / recognition-failure /
fault path, is universally quantified): when removal succeeds no file
remains, and the outcome of the removal attempt (`unlink_ok`) never
changes the primary result or error returned to the caller. -/
theorem C1_staged_cleanup_every_path (model : Option Engine)
    (file : UploadFile) (language : String) (initial_prompt : Option String)
    (word_timestamps unlink_ok : Bool)
    (hstaged : (transcribe_audio model file language initial_prompt
        word_timestamps unlink_ok).staged = true) :
    (transcribe_audio model file language initial_prompt word_timestamps
        true).tempLeft = false ∧
    (transcribe_audio model file language initial_prompt word_timestamps
        unlink_ok).result =
      (transcribe_audio model file language initial_prompt word_timestamps
        true).result := by
  cases model with
  | none => simp [transcribe_audio] at hstaged
  | some eng =>
    by_cases hname : file.filename = ""
    · simp [transcribe_audio, hname] at hstaged
    · by_cases hsize : file.content.length > MAX_FILE_SIZE
      · simp [transcribe_audio, hname, hsize] at hstaged
      · cases heng : eng file.content
            (transcribe_kwargs language initial_prompt word_timestamps) with
        | error e => simp [transcribe_audio, hname, hsize, heng]
        | ok out => simp [transcribe_audio, hname, hsize, heng]

/-- C1 witness: a staged request whose engine raises, with a failing
unlink (`unlink_ok = false`): cleanup with a successful unlink leaves no
file, and the failing unlink does not change the returned error. -/
theorem C1_staged_cleanup_every_path_witness :
    (transcribe_audio (some engErrA) fileA "he" none false true).tempLeft
        = false ∧
    (transcribe_audio (some engErrA) fileA "he" none false false).result =
      (transcribe_audio (some engErrA) fileA "he" none false true).result :=
  C1_staged_cleanup_every_path (some engErrA) fileA "he" none false false rfl

/-- C2: when a request passes validation and the engine succeeds, the
response's `text` equals the trimmed texts of the engine's segments, in
emission order, joined by single spaces (`" ".join`). -/
theorem C2_full_text_space_joined (eng : Engine) (file : UploadFile)
    (language : String) (initial_prompt : Option String)
    (word_timestamps unlink_ok : Bool) (out : EngineOutput)
    (hname : ¬ file.filename = "")
    (hsize : file.content.length ≤ MAX_FILE_SIZE)
    (heng : eng file.content
        (transcribe_kwargs language initial_prompt word_timestamps) = .ok out) :
    (transcribe_audio (some eng) file language initial_prompt word_timestamps
        unlink_ok).result.map (fun r => r.text) =
      .ok (String.intercalate " " (out.segments.map (fun s => strip s.text))) := by
  simp [transcribe_audio, hname, Nat.not_lt.mpr hsize, heng,
    collect_segments_eq, Except.map]

/-- C2 witness: segments with texts `" Hello "` and `"world "` yield the
full text `"Hello world"`. -/
theorem C2_full_text_space_joined_witness :
    (transcribe_audio (some engOkA) fileA "he" none false true).result.map
        (fun r => r.text) = .ok "Hello world" := by
  rw [C2_full_text_space_joined engOkA fileA "he" none false true
    { segments := [segA, segB], info := infoA }
    (by decide) (by decide) rfl]
  rfl

/-- C3: when a request passes validation and the engine succeeds, the
response's `segments` list is exactly the element-wise image of the
engine's emitted segments — same count, same order, nothing reordered,
deduplicated, merged or dropped. -/
theorem C3_segments_count_and_order (eng : Engine) (file : UploadFile)
    (language : String) (initial_prompt : Option String)
    (word_timestamps unlink_ok : Bool) (out : EngineOutput)
    (hname : ¬ file.filename = "")
    (hsize : file.content.length ≤ MAX_FILE_SIZE)
    (heng : eng file.content
        (transcribe_kwargs language initial_prompt word_timestamps) = .ok out) :
    (transcribe_audio (some eng) file language initial_prompt word_timestamps
        unlink_ok).result.map (fun r => r.segments) =
      .ok (out.segments.map (segment_data word_timestamps)) ∧
    (transcribe_audio (some eng) file language initial_prompt word_timestamps
        unlink_ok).result.map (fun r => r.segments.length) =
      .ok out.segments.length := by
  constructor
  · simp [transcribe_audio, hname, Nat.not_lt.mpr hsize, heng,
      collect_segments_eq, Except.map]
  · simp [transcribe_audio, hname, Nat.not_lt.mpr hsize, heng,
      collect_segments_eq, Except.map]

/-- C3 witness: two emitted segments produce exactly their two mapped
dicts, in order. -/
theorem C3_segments_count_and_order_witness :
    (transcribe_audio (some engOkA) fileA "he" none false true).result.map
        (fun r => r.segments) =
      .ok ([segA, segB].map (segment_data false)) ∧
    (transcribe_audio (some engOkA) fileA "he" none false true).result.map
        (fun r => r.segments.length) = .ok 2 :=
  C3_segments_count_and_order engOkA fileA "he" none false true
    { segments := [segA, segB], info := infoA } (by decide) (by decide) rfl

/-- C4: when the model is not loaded, `GET /health` reports
`model_loaded = false`, and every `POST /transcribe` call fails with 503
with no temporary file created (no staging, nothing left behind). -/
theorem C4_not_loaded_503_no_staging (file : UploadFile) (language : String)
    (initial_prompt : Option String) (word_timestamps unlink_ok : Bool) :
    (health_check none).model_loaded = false ∧
    (transcribe_audio none file language initial_prompt word_timestamps
        unlink_ok).result = .error ⟨503, "Model not loaded"⟩ ∧
    (transcribe_audio none file language initial_prompt word_timestamps
        unlink_ok).staged = false ∧
    (transcribe_audio none file language initial_prompt word_timestamps
        unlink_ok).tempLeft = false :=
  ⟨rfl, rfl, rfl, rfl⟩

/-- C5: with the model loaded, every upload whose declared filename is
empty (Python treats a missing filename the same way) fails with 400,
regardless of the payload content and of the other form fields. -/
theorem C5_empty_filename_400 (eng : Engine) (file : UploadFile)
    (language : String) (initial_prompt : Option String)
    (word_timestamps unlink_ok : Bool) (h : file.filename = "") :
    (transcribe_audio (some eng) file language initial_prompt word_timestamps
        unlink_ok).result = .error ⟨400, "No filename provided"⟩ ∧
    (transcribe_audio (some eng) file language initial_prompt word_timestamps
        unlink_ok).staged = false := by
  simp [transcribe_audio, h]

/-- C5 witness: an empty filename with a non-empty payload yields 400. -/
theorem C5_empty_filename_400_witness :
    (transcribe_audio (some engOkA) ⟨"", [9, 9]⟩ "he" none false true).result
        = .error ⟨400, "No filename provided"⟩ ∧
    (transcribe_audio (some engOkA) ⟨"", [9, 9]⟩ "he" none false true).staged
        = false :=
  C5_empty_filename_400 engOkA ⟨"", [9, 9]⟩ "he" none false true rfl

/-- C6 counterexample: an upload whose byte length exceeds
`MAX_FILE_SIZE` but whose filename is empty is answered with 400, not
413 — the filename check precedes the size check — refuting the claim
that every oversized upload fails with 413. -/
theorem C6_counterexample_oversized_empty_name_400 :
    fileBigNoName.content.length > MAX_FILE_SIZE ∧
    (transcribe_audio (some engOkA) fileBigNoName "he" none false true).result
        = .error ⟨400, "No filename provided"⟩ := by
  constructor
  · simp [fileBigNoName]
  · rfl

/-- C6 (amended): with the model loaded and a non-empty filename, every
upload whose byte length strictly exceeds `MAX_FILE_SIZE` fails with 413
and the message states the configured limit in MB, without staging. -/
theorem C6_oversized_413 (eng : Engine) (file : UploadFile)
    (language : String) (initial_prompt : Option String)
    (word_timestamps unlink_ok : Bool)
    (hname : ¬ file.filename = "")
    (hsize : file.content.length > MAX_FILE_SIZE) :
    (transcribe_audio (some eng) file language initial_prompt word_timestamps
        unlink_ok).result =
      .error ⟨413, "File too large. Maximum size is 50MB"⟩ ∧
    (transcribe_audio (some eng) file language initial_prompt word_timestamps
        unlink_ok).staged = false := by
  have hmsg : "File too large. Maximum size is " ++
      toString (MAX_FILE_SIZE / (1024 * 1024)) ++ "MB" =
      "File too large. Maximum size is 50MB" := rfl
  simp [transcribe_audio, hname, hsize, hmsg]

/-- C6 (amended) witness: an oversized upload with a valid filename is
answered with 413 and the 50MB message. -/
theorem C6_oversized_413_witness :
    (transcribe_audio (some engOkA) fileBigA "he" none false true).result =
      .error ⟨413, "File too large. Maximum size is 50MB"⟩ ∧
    (transcribe_audio (some engOkA) fileBigA "he" none false true).staged
        = false :=
  C6_oversized_413 engOkA fileBigA "he" none false true (by decide)
    (by simp [fileBigA])

/-- C7: when `word_timestamps = false`, every segment dict of the
response carries exactly the five base keys — in particular no `"words"`
key — even when the engine's segment records carry word-level data
(`out` is arbitrary, so its segments may hold `words`). -/
theorem C7_no_words_when_disabled (eng : Engine) (file : UploadFile)
    (language : String) (initial_prompt : Option String) (unlink_ok : Bool)
    (out : EngineOutput)
    (hname : ¬ file.filename = "")
    (hsize : file.content.length ≤ MAX_FILE_SIZE)
    (heng : eng file.content
        (transcribe_kwargs language initial_prompt false) = .ok out) :
    (transcribe_audio (some eng) file language initial_prompt false
        unlink_ok).result.map
        (fun r => r.segments.map (fun sd => sd.map Prod.fst)) =
      .ok (out.segments.map
        (fun _ => ["start", "end", "text", "avg_logprob", "no_speech_prob"])) := by
  simp [transcribe_audio, hname, Nat.not_lt.mpr hsize, heng,
    collect_segments_eq, Except.map, segment_data_keys]
  induction out.segments with
  | nil => rfl
  | cons s rest ih => simp [segment_data_keys, ih, List.replicate_succ]

/-- C7 witness: `segA` carries word-level data, yet with
`word_timestamps = false` neither segment dict has a `"words"` key. -/
theorem C7_no_words_when_disabled_witness :
    (transcribe_audio (some engOkA) fileA "he" none false true).result.map
        (fun r => r.segments.map (fun sd => sd.map Prod.fst)) =
      .ok [["start", "end", "text", "avg_logprob", "no_speech_prob"],
           ["start", "end", "text", "avg_logprob", "no_speech_prob"]] :=
  C7_no_words_when_disabled engOkA fileA "he" none true
    { segments := [segA, segB], info := infoA } (by decide) (by decide) rfl

/-- C8: after validation (hence after staging), every engine exception is
caught and surfaced as a structured 500 `HTTPException` whose detail
carries the engine's original message; the handler's result type admits
no unstructured fault. -/
theorem C8_engine_exception_500 (eng : Engine) (file : UploadFile)
    (language : String) (initial_prompt : Option String)
    (word_timestamps unlink_ok : Bool) (msg : String)
    (hname : ¬ file.filename = "")
    (hsize : file.content.length ≤ MAX_FILE_SIZE)
    (heng : eng file.content
        (transcribe_kwargs language initial_prompt word_timestamps)
        = .error msg) :
    (transcribe_audio (some eng) file language initial_prompt word_timestamps
        unlink_ok).result =
      .error ⟨500, "Transcription failed: " ++ msg⟩ ∧
    (transcribe_audio (some eng) file language initial_prompt word_timestamps
        unlink_ok).staged = true := by
  simp [transcribe_audio, hname, Nat.not_lt.mpr hsize, heng]

/-- C8 witness: an engine raising `"boom"` yields a 500 whose message
carries `"boom"`. -/
theorem C8_engine_exception_500_witness :
    (transcribe_audio (some engErrA) fileA "he" none false true).result =
      .error ⟨500, "Transcription failed: boom"⟩ ∧
    (transcribe_audio (some engErrA) fileA "he" none false true).staged
        = true :=
  C8_engine_exception_500 engErrA fileA "he" none false true "boom"
    (by decide) (by decide) rfl

/-- C9 counterexample: the normalizer has no rendering-mode
configuration.  For both values of `word_timestamps` — the only
response-shape input of the handler — every segment dict carries
`avg_logprob` and `no_speech_prob` (and the response model always
carries `duration`): the minimal shape is never produced, refuting the
claim that a configuration toggles between minimal and extended
shapes. -/
theorem C9_counterexample_no_minimal_shape :
    (transcribe_audio (some engOkA) fileA "he" none false true).result.map
        (fun r => r.segments.map (fun sd => sd.map Prod.fst)) =
      .ok [["start", "end", "text", "avg_logprob", "no_speech_prob"],
           ["start", "end", "text", "avg_logprob", "no_speech_prob"]] ∧
    (transcribe_audio (some engOkA) fileA "he" none true true).result.map
        (fun r => r.segments.map (fun sd => sd.map Prod.fst)) =
      .ok [["start", "end", "text", "avg_logprob", "no_speech_prob", "words"],
           ["start", "end", "text", "avg_logprob", "no_speech_prob"]] := by
  constructor
  · rfl
  · rfl

/-- C9 (amended): the normalizer always produces the extended shape —
`duration` is always present (the engine's value), and every segment
dict carries the five base keys; the only conditionally omitted field is
`words`, controlled solely by the `word_timestamps` flag and the
segment's own word data, not by a rendering-mode configuration. -/
theorem C9_extended_shape_always (eng : Engine) (file : UploadFile)
    (language : String) (initial_prompt : Option String)
    (word_timestamps unlink_ok : Bool) (out : EngineOutput)
    (hname : ¬ file.filename = "")
    (hsize : file.content.length ≤ MAX_FILE_SIZE)
    (heng : eng file.content
        (transcribe_kwargs language initial_prompt word_timestamps)
        = .ok out) :
    (transcribe_audio (some eng) file language initial_prompt word_timestamps
        unlink_ok).result.map (fun r => r.duration) = .ok out.info.duration ∧
    (transcribe_audio (some eng) file language initial_prompt word_timestamps
        unlink_ok).result.map
        (fun r => r.segments.map (fun sd => sd.map Prod.fst)) =
      .ok (out.segments.map (fun s =>
        if word_timestamps && words_truthy s.words then
          ["start", "end", "text", "avg_logprob", "no_speech_prob", "words"]
        else
          ["start", "end", "text", "avg_logprob", "no_speech_prob"])) := by
  constructor
  · simp [transcribe_audio, hname, Nat.not_lt.mpr hsize, heng, Except.map]
  · simp [transcribe_audio, hname, Nat.not_lt.mpr hsize, heng,
      collect_segments_eq, Except.map, segment_data_keys]

/-- C9 (amended) witness: with word timestamps requested, `segA` (which
has word data) gains a `"words"` key and `segB` (no word data) does not;
`duration` is the engine's value. -/
theorem C9_extended_shape_always_witness :
    (transcribe_audio (some engOkA) fileA "he" none true true).result.map
        (fun r => r.duration) = .ok 2.0 ∧
    (transcribe_audio (some engOkA) fileA "he" none true true).result.map
        (fun r => r.segments.map (fun sd => sd.map Prod.fst)) =
      .ok [["start", "end", "text", "avg_logprob", "no_speech_prob", "words"],
           ["start", "end", "text", "avg_logprob", "no_speech_prob"]] :=
  C9_extended_shape_always engOkA fileA "he" none true true
    { segments := [segA, segB], info := infoA } (by decide) (by decide) rfl

/-- C10: when the model is not loaded, `POST /transcribe` answers 503
for every upload — the readiness check precedes filename validation and
the size check — with no staging; consequently the request is never
answered with 400 or 413 in that state, so those outcomes are only
reachable with the model loaded. -/
theorem C10_readiness_before_validation (m : Option Engine)
    (file : UploadFile) (language : String) (initial_prompt : Option String)
    (word_timestamps unlink_ok : Bool) (h : m = none) :
    (transcribe_audio m file language initial_prompt word_timestamps
        unlink_ok).result = .error ⟨503, "Model not loaded"⟩ ∧
    (transcribe_audio m file language initial_prompt word_timestamps
        unlink_ok).staged = false ∧
    resultStatus (transcribe_audio m file language initial_prompt
        word_timestamps unlink_ok).result ≠ some 400 ∧
    resultStatus (transcribe_audio m file language initial_prompt
        word_timestamps unlink_ok).result ≠ some 413 := by
  subst h
  refine ⟨rfl, rfl, by simp [transcribe_audio, resultStatus],
    by simp [transcribe_audio, resultStatus]⟩

/-- C10 witness: an upload that is both unnamed and oversized — which
would otherwise trigger 400 or 413 — still gets 503 with no staging when
the model is not loaded. -/
theorem C10_readiness_before_validation_witness :
    (transcribe_audio none fileBigNoName "he" none false true).result =
      .error ⟨503, "Model not loaded"⟩ ∧
    (transcribe_audio none fileBigNoName "he" none false true).staged
        = false ∧
    resultStatus (transcribe_audio none fileBigNoName "he" none false
        true).result ≠ some 400 ∧
    resultStatus (transcribe_audio none fileBigNoName "he" none false
        true).result ≠ some 413 :=
  C10_readiness_before_validation none fileBigNoName "he" none false true rfl

end WhisperApi
